import Mathlib

/-!
Verification of the evolutionary-computation core in `evolve.py`.

The Python source is shallowly embedded: floats become `ℚ`, the global
random source becomes an explicit stream `rand : ℕ → ℚ` together with the
index of the next unused draw, and every operation that can raise a Python
exception returns `Except PyErr _`.
-/

namespace Evolve

/-- The Python exceptions the source can raise, one constructor per distinct
raise site / message. -/
inductive PyErr where
  /-- `TypeError: mutate() missing 1 required positional argument: 'ranges'` —
  raised by Python when `genome.mutate()` is called with no arguments, because
  the signature `def mutate(self, ranges: List[float], probability: float = 0.05)`
  gives `ranges` no default value. -/
  | typeErrorMutateMissingRanges
  /-- `TypeError: '<' not supported between instances of ... and 'NoneType'` —
  raised when a numeric value is compared against `None`. -/
  | typeErrorNoneComparison
  /-- `ValueError('ranges must be a vector with one range per gene in the genome')` -/
  | valueErrorRangesLength
  /-- `ValueError('Genotypes must have same number of genes')` -/
  | valueErrorGenesLength
  /-- `ValueError('roulette value is higher than highest limit in cummulative_scale')` -/
  | valueErrorRouletteOverflow
  /-- `ValueError("fitness_limit is not supplied, despite stop_at_fitness_limit=True")` -/
  | valueErrorFitnessLimitMissing
  /-- `ValueError("iteration_limit is not supplied, despite stop_at_iteration_limit=True")` -/
  | valueErrorIterationLimitMissing
  /-- `IndexError: list index out of range` -/
  | indexError
deriving DecidableEq, Repr

/-- Module constant `GENERATION_SIZE: int = 20`. -/
def GENERATION_SIZE : ℕ := 20

/-- Module constant `MUTATION_RATE: float = 0.07` (unused by the core). -/
def MUTATION_RATE : ℚ := 7 / 100

/-- `class Genotype`: a vector of genes (value view; see `GenotypeRef` for the
reference/aliasing view needed to talk about `clone`'s copy semantics). -/
structure Genotype where
  genes : List ℚ
deriving DecidableEq, Repr

/-- `class Phenotype`: carries a back-reference `genome` to its Genotype. -/
structure Phenotype where
  genome : Genotype
deriving DecidableEq, Repr

/-- `clone`: `return Genotype(self.genes)` seen at the level of gene values. -/
def Genotype.clone (g : Genotype) : Genotype := ⟨g.genes⟩

/-! ### Reference-level model of `clone`

Python's `Genotype.__init__` stores the list object it is handed, so
`Genotype(self.genes)` produces a new `Genotype` object whose `genes`
attribute is the *same* list object as the original's.  To reason about that
sharing we model a store of gene lists addressed by natural numbers and let a
`GenotypeRef`'s `genes` attribute be an address into the store. -/

/-- The store of allocated gene lists; the address of a list is its index. -/
structure Store where
  lists : List (List ℚ)
deriving DecidableEq, Repr

/-- A `Genotype` object whose `genes` attribute is a reference into a `Store`. -/
structure GenotypeRef where
  genes : ℕ
deriving DecidableEq, Repr

/-- Dereference a gene-list address. -/
def Store.read (st : Store) (a : ℕ) : List ℚ :=
  st.lists.getD a []

/-- Python `lst[i] = v` on the list at address `a`: in-place update of the
stored list, visible through every reference to that address. -/
def Store.writeGene (st : Store) (a i : ℕ) (v : ℚ) : Store :=
  ⟨st.lists.set a ((st.lists.getD a []).set i v)⟩

/-- `clone`: `return Genotype(self.genes)` — the new object's `genes`
attribute is the same list reference as the receiver's. -/
def GenotypeRef.clone (g : GenotypeRef) : GenotypeRef := ⟨g.genes⟩

/-! ### Mutation -/

/-- `difference_with_max_amplitude` (lines 39-40): returns
`-max_amplitude + random.random() * 2.0 * max_amplitude`, with the draw made
explicit. -/
def difference_with_max_amplitude (draw max_amplitude : ℚ) : ℚ :=
  -max_amplitude + draw * 2 * max_amplitude

/-- The `for gene_index in range(0, len(self.genes))` loop of `mutate`
(lines 43-45), walking the genes zipped with their ranges.  Each index
consumes one draw for the probability test and, when that draw is at most
`probability`, a second draw for the amplitude.  Returns the mutated genes
and the index of the next unused draw. -/
def mutateLoop (rand : ℕ → ℚ) (probability : ℚ) :
    List (ℚ × ℚ) → ℕ → List ℚ × ℕ
  | [], k => ([], k)
  | (gene, r) :: rest, k =>
    if rand k ≤ probability then
      let out := mutateLoop rand probability rest (k + 2)
      ((gene + difference_with_max_amplitude (rand (k + 1)) r) :: out.1, out.2)
    else
      let out := mutateLoop rand probability rest (k + 1)
      (gene :: out.1, out.2)

/-- `mutate` (lines 31-47), entered with an explicit `ranges` argument
(`none` models an explicit `ranges=None`, which the body replaces by a range
of `1.0` per gene). -/
def Genotype.mutate (g : Genotype) (ranges : Option (List ℚ)) (probability : ℚ)
    (rand : ℕ → ℚ) (k : ℕ) : Except PyErr (Genotype × ℕ) :=
  let rangesL := match ranges with
    | none => g.genes.map fun _ => (1 : ℚ)
    | some r => r
  if rangesL.length ≠ g.genes.length then
    .error .valueErrorRangesLength
  else
    let out := mutateLoop rand probability (g.genes.zip rangesL) k
    .ok (⟨out.1⟩, out.2)

/-- Calling `genome.mutate()` with no arguments, as `create_child` does on
line 139.  The source signature `def mutate(self, ranges: List[float],
probability: float = 0.05)` gives `ranges` no default value, so Python
rejects the call with a `TypeError` before the body (and its `ranges is None`
defaulting branch on lines 33-34) can run. -/
def Genotype.mutateNoArgs (_g : Genotype) : Except PyErr Genotype :=
  .error .typeErrorMutateMissingRanges

/-! ### Mating -/

/-- The indexed loop of `average_mating` (lines 64-68): position `i` of the
child is `self.genes[i] + scaling_factor * (other.genes[i] - self.genes[i])`;
reading `other.genes[i]` past the end raises `IndexError`. -/
def averageLoop (otherGenes : List ℚ) (scaling_factor : ℚ) :
    List ℚ → ℕ → Except PyErr (List ℚ)
  | [], _ => .ok []
  | s :: rest, i =>
    match otherGenes[i]? with
    | none => .error .indexError
    | some o =>
      match averageLoop otherGenes scaling_factor rest (i + 1) with
      | .error e => .error e
      | .ok tail => .ok ((s + scaling_factor * (o - s)) :: tail)

/-- `average_mating` (lines 59-70).  Note: the source performs no length
validation here; the only guard is in `procreate`. -/
def Genotype.average_mating (g other : Genotype) (preference : ℚ) :
    Except PyErr Genotype :=
  match averageLoop other.genes (1 - preference) g.genes 0 with
  | .error e => .error e
  | .ok child => .ok ⟨child⟩

/-- `procreate` (lines 49-57): validates the partner's gene count, then
delegates to `average_mating`. -/
def Genotype.procreate (g other : Genotype) (preference : ℚ) :
    Except PyErr Genotype :=
  if other.genes.length ≠ g.genes.length then
    .error .valueErrorGenesLength
  else
    g.average_mating other preference

/-- The per-gene loop of `give_and_take_mating` (lines 77-81): position `i`
starts as `self.genes[i]` and is overwritten with `other.genes[i]` when the
draw for that index satisfies `random.random() <= preference`; one draw is
consumed per index. -/
def giveTakeLoop (otherGenes : List ℚ) (preference : ℚ) (rand : ℕ → ℚ) :
    List ℚ → ℕ → ℕ → Except PyErr (List ℚ)
  | [], _, _ => .ok []
  | s :: rest, i, k =>
    if rand k ≤ preference then
      match otherGenes[i]? with
      | none => .error .indexError
      | some o =>
        match giveTakeLoop otherGenes preference rand rest (i + 1) (k + 1) with
        | .error e => .error e
        | .ok tail => .ok (o :: tail)
    else
      match giveTakeLoop otherGenes preference rand rest (i + 1) (k + 1) with
      | .error e => .error e
      | .ok tail => .ok (s :: tail)

/-- `give_and_take_mating` (lines 72-82). -/
def Genotype.give_and_take_mating (g other : Genotype) (preference : ℚ)
    (rand : ℕ → ℚ) (k : ℕ) : Except PyErr Genotype :=
  match giveTakeLoop other.genes preference rand g.genes 0 k with
  | .error e => .error e
  | .ok child => .ok ⟨child⟩

/-! ### Selector (`EvolutionRunner.select_next_generation`, lines 105-146)

The runner's overridable `translate_fitness_to_probability` method is passed
as an explicit function argument `translate`; the class default is the
identity. -/

/-- Default `translate_fitness_to_probability` (lines 98-103): the identity. -/
def translate_fitness_to_probability (fitness : ℚ) : ℚ := fitness

/-- The scale-building loop of `select_next_generation` (lines 118-122):
threading `probability_sum` through the scored cohort and recording one
`(cumulative value, genome)` pair per entry.  Returns the scale and the final
`probability_sum`. -/
def scaleLoop (translate : ℚ → ℚ) :
    List (Phenotype × ℚ) → ℚ → List (ℚ × Genotype) × ℚ
  | [], s => ([], s)
  | (individual, fitness) :: rest, s =>
    let s' := s + translate fitness
    let out := scaleLoop translate rest s'
    ((s', individual.genome) :: out.1, out.2)

/-- `get_genome_by_roulette_value` (lines 124-128): the first genome whose
cumulative value is at least the roulette value; falls through to a
`ValueError` when the roulette value exceeds every cumulative value. -/
def get_genome_by_roulette_value (scale : List (ℚ × Genotype)) (v : ℚ) :
    Except PyErr Genotype :=
  match scale with
  | [] => .error .valueErrorRouletteOverflow
  | (upper_limit_for_selection, genome) :: rest =>
    if v ≤ upper_limit_for_selection then .ok genome
    else get_genome_by_roulette_value rest v

/-- `create_child` (lines 132-143).  Draw `rand k * weight_sum` picks the
operator, draw `rand (k+1) * probability_sum` picks the primary parent (the
roulette runs before the operator branch, exactly as in the source), and a
mate-mode child consumes a third draw for the partner.  The mutate branch is
`genome.mutate()`, which raises `TypeError` (see `Genotype.mutateNoArgs`).
Returns the child together with the next unused draw index. -/
def create_child (scale : List (ℚ × Genotype))
    (probability_sum weight_sum clone_weight mutate_weight : ℚ)
    (rand : ℕ → ℚ) (k : ℕ) : Except PyErr (Genotype × ℕ) :=
  let roulette_value_for_selection_method := rand k * weight_sum
  let roulette_value_for_child_selection := rand (k + 1) * probability_sum
  match get_genome_by_roulette_value scale roulette_value_for_child_selection with
  | .error e => .error e
  | .ok genome =>
    if roulette_value_for_selection_method ≤ clone_weight then
      .ok (genome.clone, k + 2)
    else if roulette_value_for_selection_method ≤ clone_weight + mutate_weight then
      match genome.mutateNoArgs with
      | .error e => .error e
      | .ok child => .ok (child, k + 2)
    else
      let roulette_value_for_partner_selection := rand (k + 2) * probability_sum
      match get_genome_by_roulette_value scale roulette_value_for_partner_selection with
      | .error e => .error e
      | .ok partner_genome =>
        match genome.procreate partner_genome (1 / 2) with
        | .error e => .error e
        | .ok child => .ok (child, k + 3)

/-- The list comprehension `[create_child() for i in range(0, GENERATION_SIZE)]`
(line 145): `n` children, threading the draw index; the first exception
aborts the whole comprehension. -/
def childrenLoop (scale : List (ℚ × Genotype))
    (probability_sum weight_sum clone_weight mutate_weight : ℚ)
    (rand : ℕ → ℚ) : ℕ → ℕ → Except PyErr (List Genotype × ℕ)
  | 0, k => .ok ([], k)
  | n + 1, k =>
    match create_child scale probability_sum weight_sum clone_weight mutate_weight rand k with
    | .error e => .error e
    | .ok (child, k') =>
      match childrenLoop scale probability_sum weight_sum clone_weight mutate_weight rand n k' with
      | .error e => .error e
      | .ok (rest, kf) => .ok (child :: rest, kf)

/-- `select_next_generation` (lines 105-146).  Note that the number of
children produced is the module constant `GENERATION_SIZE`; the function has
no size parameter. -/
def select_next_generation (translate : ℚ → ℚ)
    (scored_cohort : List (Phenotype × ℚ))
    (clone_weight mutate_weight mate_weight : ℚ)
    (rand : ℕ → ℚ) (k : ℕ) : Except PyErr (List Genotype × ℕ) :=
  let built := scaleLoop translate scored_cohort 0
  let cummulative_scale := built.1
  let probability_sum := built.2
  let weight_sum := clone_weight + mutate_weight + mate_weight
  childrenLoop cummulative_scale probability_sum weight_sum clone_weight
    mutate_weight rand GENERATION_SIZE k

/-! ### Evolution loop (`EvolutionRunner.evolution_loop`, lines 148-191)

`current_fitness` starts at `float("-inf")`, modelled as `⊥ : WithBot ℚ`;
stop limits may be `None`, modelled as `Option`.  Python evaluates
`x < None` eagerly inside `or`, raising `TypeError`, and `and` short-circuits
when its left operand is `False` — both behaviours are modelled exactly. -/

/-- Python `current_iteration < iteration_limit`: raises `TypeError` when the
limit is `None`. -/
def pyLtNat (x : ℕ) : Option ℕ → Except PyErr Bool
  | none => .error .typeErrorNoneComparison
  | some l => .ok (decide (x < l))

/-- Python `current_fitness < fitness_limit` where `current_fitness` may be
`-inf`: raises `TypeError` when the limit is `None`. -/
def pyLtFit (x : WithBot ℚ) : Option ℚ → Except PyErr Bool
  | none => .error .typeErrorNoneComparison
  | some l => .ok (decide (x < (l : WithBot ℚ)))

/-- The `while` condition of lines 170-171:
`(current_iteration < iteration_limit or not stop_at_iteration_limit) and
(current_fitness < fitness_limit or not stop_at_fitness_limit)`, with
Python's evaluation order: the left comparison runs first (and can raise),
and the `and` skips its right operand when the left one is `False`. -/
def loopCond (stop_at_fitness_limit stop_at_iteration_limit : Bool)
    (current_iteration : ℕ) (iteration_limit : Option ℕ)
    (current_fitness : WithBot ℚ) (fitness_limit : Option ℚ) :
    Except PyErr Bool :=
  match pyLtNat current_iteration iteration_limit with
  | .error e => .error e
  | .ok c1 =>
    if c1 || !stop_at_iteration_limit then
      match pyLtFit current_fitness fitness_limit with
      | .error e => .error e
      | .ok c2 => .ok (c2 || !stop_at_fitness_limit)
    else
      .ok false

/-- One candidate of the scoring loop (lines 177-185): updates
`(generation_fitness, generation_leader)` and, nested inside that update,
`(current_fitness, best_individual)`; both use strict `>`.  Polymorphic in
the candidate type, since the loop only evaluates and stores candidates. -/
def scoreStep {α : Type} (evaluate : α → ℚ) (individual : α)
    (state : (WithBot ℚ × Option α) × (WithBot ℚ × Option α)) :
    (WithBot ℚ × Option α) × (WithBot ℚ × Option α) :=
  let fitness := evaluate individual
  if (fitness : WithBot ℚ) > state.1.1 then
    if (fitness : WithBot ℚ) > state.2.1 then
      (((fitness : WithBot ℚ), some individual), ((fitness : WithBot ℚ), some individual))
    else
      (((fitness : WithBot ℚ), some individual), state.2)
  else
    state

/-- The full scoring loop over one cohort (lines 173-185): builds
`scored_cohort` and returns it along with the final
`((generation_fitness, generation_leader), (current_fitness, best_individual))`. -/
def scoreLoop {α : Type} (evaluate : α → ℚ) :
    List α → ((WithBot ℚ × Option α) × (WithBot ℚ × Option α)) →
    List (α × ℚ) × ((WithBot ℚ × Option α) × (WithBot ℚ × Option α))
  | [], state => ([], state)
  | individual :: rest, state =>
    let state' := scoreStep evaluate individual state
    let out := scoreLoop evaluate rest state'
    ((individual, evaluate individual) :: out.1, out.2)

/-- The loop-carried state of `evolution_loop`. -/
structure LoopState where
  gene_pool : List Genotype
  current_iteration : ℕ
  current_fitness : WithBot ℚ
  best_individual : Option Phenotype
  draw_index : ℕ
deriving Repr

/-- Outcome of running the loop with bounded fuel: either the `while`
condition became false (the source loop exits), or the fuel ran out with the
loop still running. -/
inductive LoopOut where
  | finished (s : LoopState)
  | outOfFuel (s : LoopState)
deriving Repr

/-- The `while` loop of lines 170-191, with fuel bounding the number of
generations we unfold.  The condition is evaluated (and can raise) before the
fuel is consulted, exactly as the source evaluates it before each iteration. -/
def loopGo (decode : List Genotype → List Phenotype) (evaluate : Phenotype → ℚ)
    (translate : ℚ → ℚ) (rand : ℕ → ℚ)
    (stop_at_fitness_limit stop_at_iteration_limit : Bool)
    (fitness_limit : Option ℚ) (iteration_limit : Option ℕ) :
    ℕ → LoopState → Except PyErr LoopOut
  | fuel, s =>
    match loopCond stop_at_fitness_limit stop_at_iteration_limit
        s.current_iteration iteration_limit s.current_fitness fitness_limit with
    | .error e => .error e
    | .ok false => .ok (.finished s)
    | .ok true =>
      match fuel with
      | 0 => .ok (.outOfFuel s)
      | fuel' + 1 =>
        let cohort := decode s.gene_pool
        let scored := scoreLoop evaluate cohort ((⊥, none), (s.current_fitness, s.best_individual))
        match select_next_generation translate scored.1 1 1 1 rand s.draw_index with
        | .error e => .error e
        | .ok (pool', k') =>
          loopGo decode evaluate translate rand stop_at_fitness_limit
            stop_at_iteration_limit fitness_limit iteration_limit fuel'
            ⟨pool', s.current_iteration + 1, scored.2.2.1, scored.2.2.2, k'⟩

/-- `evolution_loop` (lines 148-191): the stop-criteria validation of lines
161-164 followed by the `while` loop. -/
def evolution_loop (decode : List Genotype → List Phenotype)
    (evaluate : Phenotype → ℚ) (translate : ℚ → ℚ) (rand : ℕ → ℚ)
    (gene_pool : List Genotype)
    (stop_at_fitness_limit stop_at_iteration_limit : Bool)
    (fitness_limit : Option ℚ) (iteration_limit : Option ℕ)
    (fuel : ℕ) : Except PyErr LoopOut :=
  if stop_at_fitness_limit ∧ fitness_limit = none then
    .error .valueErrorFitnessLimitMissing
  else if stop_at_iteration_limit ∧ iteration_limit = none then
    .error .valueErrorIterationLimitMissing
  else
    loopGo decode evaluate translate rand stop_at_fitness_limit
      stop_at_iteration_limit fitness_limit iteration_limit fuel
      ⟨gene_pool, 0, ⊥, none, 0⟩

/-- The best-so-far tracker of the loop in isolation: the
`(current_fitness, best_individual)` pair recorded after each generation,
where each generation runs the scoring loop of lines 173-185 with
`generation_fitness = -inf` and `generation_leader = None` freshly reset.
The cohorts are the decoded generations in order; `select_next_generation`
only determines which cohorts appear, not how the tracker updates. -/
def trackRun {α : Type} (evaluate : α → ℚ) :
    List (List α) → WithBot ℚ → Option α → List (WithBot ℚ × Option α)
  | [], _, _ => []
  | cohort :: rest, cf, b =>
    let out := scoreLoop evaluate cohort ((⊥, none), (cf, b))
    out.2.2 :: trackRun evaluate rest out.2.2.1 out.2.2.2

/-- The unnested form of the best-so-far update: fold
`if fitness > current then (fitness, some individual) else state` over a list
of candidates.  `scoreLoop` computes exactly this on its second component
(see `scoreLoop_snd`). -/
def bestFold {α : Type} (evaluate : α → ℚ) :
    List α → WithBot ℚ × Option α → WithBot ℚ × Option α
  | [], state => state
  | a :: rest, state =>
    bestFold evaluate rest
      (if (evaluate a : WithBot ℚ) > state.1 then ((evaluate a : WithBot ℚ), some a) else state)

/-- The child gene list exactly as the spec's formula for `average_mating`
states it: gene `i` is
`self.genes[i] + (1 - preference) * (other.genes[i] - self.genes[i])`
(spec-side description, compared against `Genotype.average_mating`). -/
def averageSpecGenes (a b : Genotype) (preference : ℚ) : List ℚ :=
  (a.genes.zip b.genes).map fun q => q.1 + (1 - preference) * (q.2 - q.1)

deriving instance DecidableEq for Except

/-! ## General lemmas -/

/-- `Genotype(self.genes)` carries the same gene values as the receiver. -/
theorem Genotype.clone_eq (g : Genotype) : g.clone = g := rfl

/-- A roulette value at most the first cumulative value selects the first
genome of the scale. -/
theorem get_genome_by_roulette_value_first (u : ℚ) (g : Genotype)
    (rest : List (ℚ × Genotype)) (v : ℚ) (h : v ≤ u) :
    get_genome_by_roulette_value ((u, g) :: rest) v = .ok g := by
  simp [get_genome_by_roulette_value, h]

/-! ## C1 — give_and_take_mating's bias -/

/-- C1: the claim says gene `i` is copied from `self` when the draw for that
index is at most `preference`.  The source does the opposite: line 80
overwrites the child gene with `other.genes[i]` when
`random.random() <= preference`.  Concretely, with `self = Genome([1.0])`,
`other = Genome([2.0])` and `preference = 1.0`, every draw satisfies the
test, and the child is `other`'s genome `[2.0]`, not `self`'s `[1.0]`. -/
theorem give_and_take_low_draw_copies_other :
    Genotype.give_and_take_mating ⟨[1]⟩ ⟨[2]⟩ 1 (fun _ => 0) 0 = .ok ⟨[2]⟩ := by
  decide

/-! ## C2 — the mutate branch of create_child -/

/-- C2: when the operator-mode draw selects mutate, `create_child` calls
`primary.mutate()` (line 139) with no arguments; since the signature of
`mutate` gives `ranges` no default value, the call raises `TypeError`
instead of returning a mutated child.  Concretely: scored population of one
individual with fitness `1`, default weights (`weight_sum = 3`), every draw
`1/2`, so the mode draw is `3/2 ∈ (clone_weight, clone_weight+mutate_weight]`. -/
theorem create_child_mutate_mode_type_error :
    create_child [(1, ⟨[0]⟩)] 1 3 1 1 (fun _ => 1 / 2) 0
      = .error .typeErrorMutateMissingRanges := by
  norm_num [create_child, get_genome_by_roulette_value, Genotype.mutateNoArgs,
    Genotype.clone]

/-! ## C3 — stop criteria with the disabled limit left as None -/

/-- C3: the claim says that with only `stop_at_fitness_limit` enabled and
`iteration_limit=None` (the spec's worked example) the loop runs and
eventually terminates.  In the source the `while` condition evaluates
`current_iteration < iteration_limit` before the
`or not stop_at_iteration_limit` short-circuit can help, so with
`iteration_limit=None` the very first condition evaluation raises
`TypeError: '<' not supported between 'int' and 'NoneType'` and no
generation ever runs. -/
theorem evolution_loop_none_limit_type_error :
    evolution_loop (fun gs => gs.map Phenotype.mk) (fun p => p.genome.genes.headI)
      translate_fitness_to_probability (fun _ => 0) [⟨[0]⟩]
      true false (some 5) none 1
      = .error .typeErrorNoneComparison := rfl

/-! ## C4 — clone's copy semantics -/

/-- C4: refutation evidence — `clone` is `return Genotype(self.genes)`, so the
clone's `genes` attribute is the same list object as the original's.  With a
store holding the single list `[1.0]` referenced by genome `g`, writing `2.0`
into gene `0` of `g.clone()`'s storage changes what `g` reads, contradicting
the claim that mutating the clone's gene storage cannot change `g`'s genes. -/
theorem clone_shared_storage_counterexample :
    Store.read (Store.writeGene ⟨[[1]]⟩ (GenotypeRef.clone ⟨0⟩).genes 0 2) 0
      ≠ Store.read (⟨[[1]]⟩ : Store) 0 := by
  decide

/-- C4 (amended): `clone` returns a Genotype with a gene sequence of the same
length and values, but with shallow-copy semantics: its `genes` attribute is
the very same list reference, so after any in-place write through the
clone's storage the original and the clone still read identical gene lists —
they change together rather than independently. -/
theorem clone_is_shallow (st : Store) (g : GenotypeRef) (i : ℕ) (v : ℚ) :
    (GenotypeRef.clone g).genes = g.genes ∧
    Store.read st (GenotypeRef.clone g).genes = Store.read st g.genes ∧
    Store.read (Store.writeGene st (GenotypeRef.clone g).genes i v) g.genes
      = Store.read (Store.writeGene st (GenotypeRef.clone g).genes i v)
          (GenotypeRef.clone g).genes :=
  ⟨rfl, rfl, rfl⟩

/-! ## average_mating lemmas (C6, C9) -/

/-- Success shape of the `average_mating` loop: when every index it reads is
in range, it returns the zip-wise weighted interpolation of the remaining
receiver genes with the matching suffix of the partner's genes. -/
theorem averageLoop_ok (otherGenes : List ℚ) (sc : ℚ) :
    ∀ (selfGenes : List ℚ) (i : ℕ), i + selfGenes.length ≤ otherGenes.length →
      averageLoop otherGenes sc selfGenes i
        = .ok ((selfGenes.zip (otherGenes.drop i)).map fun q => q.1 + sc * (q.2 - q.1))
  | [], i, _ => by simp [averageLoop]
  | s :: rest, i, h => by
    have hlen : i + (rest.length + 1) ≤ otherGenes.length := by
      simpa using h
    have hi : i < otherGenes.length := by omega
    have hrec := averageLoop_ok otherGenes sc rest (i + 1) (by omega)
    rw [← List.getElem_cons_drop otherGenes i hi, List.zip_cons_cons, List.map_cons]
    simp only [averageLoop, List.getElem?_eq_getElem hi, hrec]

/-- Failure shape of the `average_mating` loop: when the remaining indices run
past the end of the partner's genes, the loop raises `IndexError`. -/
theorem averageLoop_err (otherGenes : List ℚ) (sc : ℚ) :
    ∀ (selfGenes : List ℚ) (i : ℕ), otherGenes.length < i + selfGenes.length →
      i ≤ otherGenes.length →
      averageLoop otherGenes sc selfGenes i = .error .indexError
  | [], i, h, h2 => by
    exfalso
    simp only [List.length_nil, Nat.add_zero] at h
    omega
  | s :: rest, i, h, h2 => by
    rcases Nat.lt_or_ge i otherGenes.length with hi | hi
    · have hlen : otherGenes.length < i + (rest.length + 1) := by
        simpa using h
      have hrec := averageLoop_err otherGenes sc rest (i + 1) (by omega) (by omega)
      simp [averageLoop, List.getElem?_eq_getElem hi, hrec]
    · have hnone : otherGenes[i]? = none := List.getElem?_eq_none hi
      simp [averageLoop, hnone]

/-- `average_mating` on a partner at least as long as the receiver returns
the zip-wise weighted interpolation of the two gene lists. -/
theorem average_mating_ok (g other : Genotype) (p : ℚ)
    (h : g.genes.length ≤ other.genes.length) :
    g.average_mating other p
      = .ok ⟨(g.genes.zip other.genes).map fun q => q.1 + (1 - p) * (q.2 - q.1)⟩ := by
  unfold Genotype.average_mating
  rw [averageLoop_ok other.genes (1 - p) g.genes 0 (by omega)]
  simp

/-! ## C6 — length validation of the three operators -/

/-- C6: refutation evidence — `average_mating` performs no length check, so
on a receiver with one gene and a partner with two genes it does not raise a
`ValidationError`: it returns a child, `[0.0 + 0.5 * (2.0 - 0.0)] = [1.0]`. -/
theorem average_mating_longer_partner_counterexample :
    Genotype.average_mating ⟨[0]⟩ ⟨[2, 4]⟩ (1 / 2) = .ok ⟨[1]⟩ := by
  norm_num [Genotype.average_mating, averageLoop]

/-- C6 (amended): `procreate` raises `ValueError` on a partner with a
different gene count, and `mutate` raises `ValueError` on a supplied ranges
vector whose length differs from the gene count, in both cases returning no
child; `average_mating`, however, performs no length validation of its own:
with a partner at least as long as the receiver it returns a child of the
receiver's length, and with a shorter partner it fails with `IndexError`,
not with the `ValueError` the validations use. -/
theorem length_validation_behaviour
    (g1 o1 : Genotype) (p1 : ℚ) (h1 : o1.genes.length ≠ g1.genes.length)
    (g2 : Genotype) (ranges : List ℚ) (prob : ℚ) (rand : ℕ → ℚ) (k : ℕ)
    (h2 : ranges.length ≠ g2.genes.length)
    (g3 o3 : Genotype) (p3 : ℚ) (h3 : g3.genes.length ≤ o3.genes.length)
    (g4 o4 : Genotype) (p4 : ℚ) (h4 : o4.genes.length < g4.genes.length) :
    g1.procreate o1 p1 = .error .valueErrorGenesLength ∧
    g2.mutate (some ranges) prob rand k = .error .valueErrorRangesLength ∧
    Except.map (fun c => c.genes.length) (g3.average_mating o3 p3)
      = .ok g3.genes.length ∧
    g4.average_mating o4 p4 = .error .indexError := by
  refine ⟨?_, ?_, ?_, ?_⟩
  · simp [Genotype.procreate, h1]
  · simp [Genotype.mutate, h2]
  · rw [average_mating_ok g3 o3 p3 h3]
    simp [Except.map, List.length_zip, Nat.min_eq_left h3]
  · unfold Genotype.average_mating
    rw [averageLoop_err o4.genes (1 - p4) g4.genes 0 (by omega) (by omega)]

/-- C6 witness: the four behaviours at concrete genomes — `procreate` and
`mutate` validate, `average_mating` with a longer partner returns a child of
the receiver's length, and with a shorter partner raises `IndexError`. -/
theorem length_validation_behaviour_witness :
    (⟨[0]⟩ : Genotype).procreate ⟨[1, 2]⟩ 0 = .error .valueErrorGenesLength ∧
    (⟨[0]⟩ : Genotype).mutate (some [1, 1]) 0 (fun _ => 0) 0
      = .error .valueErrorRangesLength ∧
    Except.map (fun c => c.genes.length) ((⟨[0]⟩ : Genotype).average_mating ⟨[2, 4]⟩ 0)
      = .ok 1 ∧
    (⟨[0, 0]⟩ : Genotype).average_mating ⟨[2]⟩ 0 = .error .indexError :=
  length_validation_behaviour ⟨[0]⟩ ⟨[1, 2]⟩ 0 (by decide)
    ⟨[0]⟩ [1, 1] 0 (fun _ => 0) 0 (by decide)
    ⟨[0]⟩ ⟨[2, 4]⟩ 0 (by decide)
    ⟨[0, 0]⟩ ⟨[2]⟩ 0 (by decide)

/-! ## C9 — the average_mating formula -/

/-- Position `i` of the spec-side child gene list is the spec's formula at
the two parents' genes at `i`. -/
theorem averageSpecGenes_getD (a b : Genotype) (p : ℚ) (i : ℕ)
    (hlen : a.genes.length = b.genes.length) (hi : i < a.genes.length) :
    (averageSpecGenes a b p).getD i 0
      = a.genes.getD i 0 + (1 - p) * (b.genes.getD i 0 - a.genes.getD i 0) := by
  have hi2 : i < b.genes.length := by omega
  have hzip : i < (a.genes.zip b.genes).length := by
    simp only [List.length_zip]
    omega
  have hmap : i < ((a.genes.zip b.genes).map fun q => q.1 + (1 - p) * (q.2 - q.1)).length := by
    simpa using hzip
  rw [averageSpecGenes, List.getD_eq_getElem?_getD, List.getD_eq_getElem?_getD,
    List.getD_eq_getElem?_getD, List.getElem?_eq_getElem hmap,
    List.getElem?_eq_getElem hi, List.getElem?_eq_getElem hi2]
  simp [List.getElem_zip]

/-- C9: for equal-length genomes `average_mating` computes exactly the spec's
per-gene formula `self.genes[i] + (1 - preference) * (other.genes[i] -
self.genes[i])`; consequently, for `preference` in `[0,1]` every child gene
lies between the two parents' genes at that index, at `preference = 1` the
child equals `self`, and at `preference = 0` the child's genes equal
`other`'s. -/
theorem average_mating_formula (a b : Genotype) (p : ℚ) (i : ℕ)
    (hlen : a.genes.length = b.genes.length) (hi : i < a.genes.length) :
    a.average_mating b p = .ok ⟨averageSpecGenes a b p⟩ ∧
    (averageSpecGenes a b p).getD i 0
      = a.genes.getD i 0 + (1 - p) * (b.genes.getD i 0 - a.genes.getD i 0) ∧
    ((0 ≤ p ∧ p ≤ 1) →
      min (a.genes.getD i 0) (b.genes.getD i 0) ≤ (averageSpecGenes a b p).getD i 0 ∧
      (averageSpecGenes a b p).getD i 0 ≤ max (a.genes.getD i 0) (b.genes.getD i 0)) ∧
    a.average_mating b 1 = .ok a ∧
    Except.map Genotype.genes (a.average_mating b 0) = .ok b.genes := by
  have hfor := averageSpecGenes_getD a b p i hlen hi
  refine ⟨average_mating_ok a b p hlen.le, hfor, ?_, ?_, ?_⟩
  · rintro ⟨hp0, hp1⟩
    rw [hfor]
    rcases le_total (a.genes.getD i 0) (b.genes.getD i 0) with h | h
    · rw [min_eq_left h, max_eq_right h]
      constructor
      · nlinarith [mul_nonneg (by linarith : (0:ℚ) ≤ 1 - p)
          (by linarith : (0:ℚ) ≤ b.genes.getD i 0 - a.genes.getD i 0)]
      · nlinarith [mul_nonneg hp0
          (by linarith : (0:ℚ) ≤ b.genes.getD i 0 - a.genes.getD i 0)]
    · rw [min_eq_right h, max_eq_left h]
      constructor
      · nlinarith [mul_nonneg hp0
          (by linarith : (0:ℚ) ≤ a.genes.getD i 0 - b.genes.getD i 0)]
      · nlinarith [mul_nonneg (by linarith : (0:ℚ) ≤ 1 - p)
          (by linarith : (0:ℚ) ≤ a.genes.getD i 0 - b.genes.getD i 0)]
  · rw [average_mating_ok a b 1 hlen.le]
    have hfun : (fun q : ℚ × ℚ => q.1 + (1 - (1:ℚ)) * (q.2 - q.1)) = Prod.fst := by
      funext q
      ring
    rw [hfun, List.map_fst_zip a.genes b.genes hlen.le]
  · rw [average_mating_ok a b 0 hlen.le]
    have hfun : (fun q : ℚ × ℚ => q.1 + (1 - (0:ℚ)) * (q.2 - q.1)) = Prod.snd := by
      funext q
      ring
    rw [hfun, List.map_snd_zip a.genes b.genes hlen.ge]
    rfl

/-- C9 witness: the formula, bounds and endpoint behaviours at
`a = Genome([0.0])`, `b = Genome([2.0])`, `preference = 0`, gene index `0`. -/
theorem average_mating_formula_witness :
    (⟨[0]⟩ : Genotype).average_mating ⟨[2]⟩ 0 = .ok ⟨averageSpecGenes ⟨[0]⟩ ⟨[2]⟩ 0⟩ ∧
    (averageSpecGenes ⟨[0]⟩ ⟨[2]⟩ 0).getD 0 0
      = ([0] : List ℚ).getD 0 0
        + (1 - 0) * (([2] : List ℚ).getD 0 0 - ([0] : List ℚ).getD 0 0) ∧
    ((0 ≤ (0:ℚ) ∧ (0:ℚ) ≤ 1) →
      min (([0] : List ℚ).getD 0 0) (([2] : List ℚ).getD 0 0)
        ≤ (averageSpecGenes ⟨[0]⟩ ⟨[2]⟩ 0).getD 0 0 ∧
      (averageSpecGenes ⟨[0]⟩ ⟨[2]⟩ 0).getD 0 0
        ≤ max (([0] : List ℚ).getD 0 0) (([2] : List ℚ).getD 0 0)) ∧
    (⟨[0]⟩ : Genotype).average_mating ⟨[2]⟩ 1 = .ok ⟨[0]⟩ ∧
    Except.map Genotype.genes ((⟨[0]⟩ : Genotype).average_mating ⟨[2]⟩ 0) = .ok [2] :=
  average_mating_formula ⟨[0]⟩ ⟨[2]⟩ 0 0 (by decide) (by decide)

/-! ## Selector lemmas (C5, C8, C10) -/

/-- A non-empty child comprehension propagates an exception raised by the
first `create_child()` call. -/
theorem childrenLoop_error (scale : List (ℚ × Genotype))
    (ps ws cw mw : ℚ) (rand : ℕ → ℚ) (n k : ℕ) (e : PyErr) (hn : n ≠ 0)
    (h : create_child scale ps ws cw mw rand k = .error e) :
    childrenLoop scale ps ws cw mw rand n k = .error e := by
  cases n with
  | zero => exact absurd rfl hn
  | succ m => simp [childrenLoop, h]

/-- When the child comprehension returns normally it returns one genome per
iteration of `range(0, GENERATION_SIZE)`. -/
theorem childrenLoop_ok_length (scale : List (ℚ × Genotype))
    (ps ws cw mw : ℚ) (rand : ℕ → ℚ) :
    ∀ (n k : ℕ) (out : List Genotype × ℕ),
      childrenLoop scale ps ws cw mw rand n k = .ok out → out.1.length = n
  | 0, k, out, h => by
    simp only [childrenLoop, Except.ok.injEq] at h
    rw [← h]
    rfl
  | n + 1, k, out, h => by
    rw [childrenLoop] at h
    rcases hc : create_child scale ps ws cw mw rand k with e | ⟨child, k'⟩ <;>
      rw [hc] at h
    · exact absurd h (by simp)
    · dsimp only at h
      rcases hcl : childrenLoop scale ps ws cw mw rand n k' with e2 | ⟨rest, kf⟩ <;>
        rw [hcl] at h
      · exact absurd h (by simp)
      · have hlen := childrenLoop_ok_length scale ps ws cw mw rand n k' (rest, kf) hcl
        simp only [Except.ok.injEq] at h
        rw [← h]
        simpa using hlen

/-- With every draw `0` and a single scored individual of non-negative
translated fitness, every operator draw selects clone and every roulette draw
selects the lone genome: the comprehension returns `n` copies of it,
consuming two draws per child. -/
theorem childrenLoop_const_zero (p : Phenotype) (f : ℚ) (hf : 0 ≤ f) :
    ∀ (n k : ℕ),
      childrenLoop [(f, p.genome)] f 3 1 1 (fun _ => 0) n k
        = .ok (List.replicate n p.genome, k + 2 * n)
  | 0, k => by simp [childrenLoop]
  | n + 1, k => by
    have hrec := childrenLoop_const_zero p f hf n (k + 2)
    have hcc : create_child [(f, p.genome)] f 3 1 1 (fun _ => 0) k
        = .ok (p.genome, k + 2) := by
      norm_num [create_child, get_genome_by_roulette_value, hf, Genotype.clone_eq]
    rw [childrenLoop, hcc]
    dsimp only
    rw [hrec]
    simp only [List.replicate_succ, Except.ok.injEq, Prod.mk.injEq]
    exact ⟨trivial, by omega⟩

/-- `select_next_generation` on one individual of fitness `1` with default
weights and every draw `0`: twenty clones of the lone genome. -/
theorem select_const_zero (p : Phenotype) :
    select_next_generation translate_fitness_to_probability [(p, 1)] 1 1 1 (fun _ => 0) 0
      = .ok (List.replicate GENERATION_SIZE p.genome, 2 * GENERATION_SIZE) := by
  have h := childrenLoop_const_zero p 1 (by norm_num) GENERATION_SIZE 0
  simp only [select_next_generation, scaleLoop, translate_fitness_to_probability]
  norm_num
  norm_num at h
  exact h

/-! ## C8 — roulette overflow and the empty population -/

/-- C8: `get_genome_by_roulette_value` fails (with the `ValueError` the spec
calls `InvariantViolation`) exactly when the roulette value exceeds every
cumulative value in the scale; in particular, on an empty scored population
the scale is empty, every pick fails, and `select_next_generation` fails fast
instead of returning any next generation. -/
theorem roulette_overflow_iff_and_empty_population (scale : List (ℚ × Genotype))
    (v : ℚ) (translate : ℚ → ℚ) (cw mw mtw : ℚ) (rand : ℕ → ℚ) (k : ℕ) :
    (get_genome_by_roulette_value scale v = .error .valueErrorRouletteOverflow
      ↔ scale.all (fun q => decide (q.1 < v)) = true) ∧
    select_next_generation translate [] cw mw mtw rand k
      = .error .valueErrorRouletteOverflow := by
  constructor
  · induction scale with
    | nil => simp [get_genome_by_roulette_value]
    | cons hd tl ih =>
      obtain ⟨u, g⟩ := hd
      by_cases h : v ≤ u
      · simp [get_genome_by_roulette_value, h, not_lt.mpr h]
      · simp [get_genome_by_roulette_value, h, ih, lt_of_not_le h]
  · rfl

/-! ## C5 — the size of the next generation -/

/-- C5: refutation evidence — on a valid non-empty scored population,
whenever the operator-mode draw selects mutate (here every draw is `1/2`, so
the mode draw is `3/2 ∈ (1, 2]`), `select_next_generation` raises `TypeError`
instead of returning a sequence of genomes at all. -/
theorem select_mutate_draw_counterexample :
    select_next_generation translate_fitness_to_probability [(⟨⟨[0]⟩⟩, 1)] 1 1 1
      (fun _ => 1 / 2) 0 = .error .typeErrorMutateMissingRanges := by
  simp only [select_next_generation, scaleLoop, translate_fitness_to_probability]
  apply childrenLoop_error _ _ _ _ _ _ GENERATION_SIZE _ _ (by decide)
  norm_num [create_child, get_genome_by_roulette_value, Genotype.mutateNoArgs]

/-- C5 (amended): whenever `select_next_generation` returns normally it
returns exactly `GENERATION_SIZE` genomes — but that count is the module
constant `GENERATION_SIZE = 20`, not a caller-supplied parameter (the
function has no size parameter), and the call can instead fail (for example
any mutate-mode draw raises `TypeError`, and a roulette overflow raises
`ValueError`). -/
theorem select_ok_length (translate : ℚ → ℚ) (scored : List (Phenotype × ℚ))
    (cw mw mtw : ℚ) (rand : ℕ → ℚ) (k : ℕ) (out : List Genotype × ℕ)
    (h : select_next_generation translate scored cw mw mtw rand k = .ok out) :
    out.1.length = GENERATION_SIZE ∧ GENERATION_SIZE = 20 := by
  refine ⟨?_, rfl⟩
  exact childrenLoop_ok_length (scaleLoop translate scored 0).1
    (scaleLoop translate scored 0).2 (cw + mw + mtw) cw mw rand
    GENERATION_SIZE k out h

/-- C5 witness: a run that does return (single individual, every draw `0`,
so all twenty children are clones) produces exactly `GENERATION_SIZE = 20`
genomes. -/
theorem select_ok_length_witness :
    select_next_generation translate_fitness_to_probability [(⟨⟨[5]⟩⟩, 1)] 1 1 1
      (fun _ => 0) 0
      = .ok (List.replicate GENERATION_SIZE ⟨[5]⟩, 2 * GENERATION_SIZE) ∧
    (List.replicate GENERATION_SIZE (⟨[5]⟩ : Genotype), 2 * GENERATION_SIZE).1.length
      = GENERATION_SIZE ∧ GENERATION_SIZE = 20 :=
  ⟨select_const_zero ⟨⟨[5]⟩⟩,
    select_ok_length translate_fitness_to_probability [(⟨⟨[5]⟩⟩, 1)] 1 1 1 (fun _ => 0) 0
      (List.replicate GENERATION_SIZE ⟨[5]⟩, 2 * GENERATION_SIZE)
      (select_const_zero ⟨⟨[5]⟩⟩)⟩

/-! ## C10 — all-zero translated fitness -/

/-- When every translated fitness is `0`, the cumulative scale keeps the
running sum at its starting value for every entry. -/
theorem scaleLoop_all_zero (translate : ℚ → ℚ) :
    ∀ (scored : List (Phenotype × ℚ)) (s : ℚ),
      (∀ pr ∈ scored, translate pr.2 = 0) →
      scaleLoop translate scored s = (scored.map fun pr => (s, pr.1.genome), s)
  | [], _, _ => rfl
  | pr :: rest, s, h => by
    obtain ⟨ind, fit⟩ := pr
    have h0 : translate fit = 0 := h (ind, fit) (by simp)
    have hrec := scaleLoop_all_zero translate rest s fun q hq => h q (by simp [hq])
    simp [scaleLoop, h0, hrec]

/-- Averaging a genome with itself returns the genome unchanged, whatever the
weight. -/
theorem zip_self_map_interp (c : ℚ) :
    ∀ (l : List ℚ), ((l.zip l).map fun q => q.1 + c * (q.2 - q.1)) = l
  | [] => rfl
  | x :: rest => by
    simp [zip_self_map_interp c rest]

/-- `genome.procreate(genome)` (same genome as both parents) succeeds and
returns a genome with the same genes. -/
theorem procreate_self (g : Genotype) : g.procreate g (1 / 2) = .ok g := by
  rw [Genotype.procreate, if_neg (by simp), average_mating_ok g g (1 / 2) le_rfl,
    zip_self_map_interp]

/-- `create_child` over a scale whose first cumulative value is `0` and whose
probability mass is `0`: every roulette draw evaluates to `0`, so the first
genome is both the primary parent and (in mate mode) the partner; when the
operator draw selects clone or mate the child is exactly that first genome. -/
theorem create_child_zero_mass (g0 : Genotype) (rest : List (ℚ × Genotype))
    (ws cw mw : ℚ) (rand : ℕ → ℚ) (k : ℕ)
    (hmode : rand k * ws ≤ cw
      ∨ (¬ rand k * ws ≤ cw ∧ ¬ rand k * ws ≤ cw + mw)) :
    create_child ((0, g0) :: rest) 0 ws cw mw rand k = .ok (g0, k + 2)
      ∨ create_child ((0, g0) :: rest) 0 ws cw mw rand k = .ok (g0, k + 3) := by
  have hroul0 : get_genome_by_roulette_value ((0, g0) :: rest) 0 = .ok g0 :=
    get_genome_by_roulette_value_first 0 g0 rest 0 le_rfl
  have hps : g0.procreate g0 (2⁻¹ : ℚ) = .ok g0 := by
    rw [← one_div]
    exact procreate_self g0
  rcases hmode with hm | ⟨hm1, hm2⟩
  · left
    simp [create_child, hroul0, hm, Genotype.clone_eq]
  · right
    simp [create_child, hroul0, hm1, hm2, hps, procreate_self]

/-- The child comprehension under an all-zero scale: provided no operator
draw selects mutate, it returns `n` copies of the first genome. -/
theorem childrenLoop_zero_mass (g0 : Genotype) (rest : List (ℚ × Genotype))
    (ws cw mw : ℚ) (rand : ℕ → ℚ)
    (hmode : ∀ j, rand j * ws ≤ cw
      ∨ (¬ rand j * ws ≤ cw ∧ ¬ rand j * ws ≤ cw + mw)) :
    ∀ (n k : ℕ), ∃ kf, childrenLoop ((0, g0) :: rest) 0 ws cw mw rand n k
      = .ok (List.replicate n g0, kf)
  | 0, k => ⟨k, rfl⟩
  | n + 1, k => by
    rcases create_child_zero_mass g0 rest ws cw mw rand k (hmode k) with hc | hc
    · obtain ⟨kf, hrec⟩ := childrenLoop_zero_mass g0 rest ws cw mw rand hmode n (k + 2)
      refine ⟨kf, ?_⟩
      rw [childrenLoop, hc]
      dsimp only
      rw [hrec]
      simp [List.replicate_succ]
    · obtain ⟨kf, hrec⟩ := childrenLoop_zero_mass g0 rest ws cw mw rand hmode n (k + 3)
      refine ⟨kf, ?_⟩
      rw [childrenLoop, hc]
      dsimp only
      rw [hrec]
      simp [List.replicate_succ]

/-- C10: refutation evidence — on a scored population with all-zero
translated fitness, `select_next_generation` can still fail: when the
operator-mode draw selects mutate (every draw `1/2`, mode draw `3/2`), the
`primary.mutate()` call raises `TypeError`, so the claim that the call "does
not fail" is false; the failure has nothing to do with the roulette. -/
theorem zero_mass_mutate_draw_counterexample :
    select_next_generation translate_fitness_to_probability [(⟨⟨[0]⟩⟩, 0)] 1 1 1
      (fun _ => 1 / 2) 0 = .error .typeErrorMutateMissingRanges := by
  simp only [select_next_generation, scaleLoop, translate_fitness_to_probability]
  apply childrenLoop_error _ _ _ _ _ _ GENERATION_SIZE _ _ (by decide)
  norm_num [create_child, get_genome_by_roulette_value, Genotype.mutateNoArgs]

/-- C10 (amended): on a non-empty scored population whose translated fitness
values are all zero the probability mass is `0`, every roulette draw
evaluates to `0.0`, the scan returns the first entry (its cumulative value
`0 >= 0`), and the first genome of the population is the primary parent —
and, in mate mode, also the partner — of every produced child; provided no
operator draw selects mutate (a mutate draw raises `TypeError` regardless of
fitness), `select_next_generation` succeeds and every produced child is
exactly the first genome. -/
theorem zero_mass_selects_first_genome (first : Phenotype × ℚ)
    (rest : List (Phenotype × ℚ)) (translate : ℚ → ℚ) (cw mw mtw : ℚ)
    (rand : ℕ → ℚ) (k : ℕ)
    (hzero : ∀ pr ∈ first :: rest, translate pr.2 = 0)
    (hmode : ∀ j, rand j * (cw + mw + mtw) ≤ cw
      ∨ (¬ rand j * (cw + mw + mtw) ≤ cw
          ∧ ¬ rand j * (cw + mw + mtw) ≤ cw + mw)) :
    Except.map Prod.fst
        (select_next_generation translate (first :: rest) cw mw mtw rand k)
      = .ok (List.replicate GENERATION_SIZE first.1.genome) := by
  have hscale := scaleLoop_all_zero translate (first :: rest) 0 hzero
  obtain ⟨kf, hcl⟩ := childrenLoop_zero_mass first.1.genome
    (rest.map fun pr => (0, pr.1.genome)) (cw + mw + mtw) cw mw rand hmode
    GENERATION_SIZE k
  simp only [List.map_cons] at hscale
  simp only [select_next_generation, hscale, hcl, Except.map]

/-- C10 witness: one individual of fitness `0` under the identity
translation, every draw `0` (all children cloned): twenty copies of the lone
genome. -/
theorem zero_mass_selects_first_genome_witness :
    Except.map Prod.fst
        (select_next_generation translate_fitness_to_probability
          [(⟨⟨[5]⟩⟩, 0)] 1 1 1 (fun _ => 0) 0)
      = .ok (List.replicate GENERATION_SIZE ⟨[5]⟩) :=
  zero_mass_selects_first_genome (⟨⟨[5]⟩⟩, 0) [] translate_fitness_to_probability
    1 1 1 (fun _ => 0) 0
    (by
      intro pr h
      simp only [List.mem_singleton] at h
      subst h
      rfl)
    (by
      intro j
      left
      norm_num)

/-! ## C7 — best-so-far tracking -/

/-- The nested update of lines 179-184 acts on
`(current_fitness, best_individual)` exactly like the plain fold
`if fitness > current then update`, because the generation-local maximum
never exceeds the global one. -/
theorem scoreLoop_snd {α : Type} (evaluate : α → ℚ) :
    ∀ (xs : List α) (gf : WithBot ℚ) (gl : Option α) (cf : WithBot ℚ) (b : Option α),
      gf ≤ cf →
      (scoreLoop evaluate xs ((gf, gl), (cf, b))).2.2 = bestFold evaluate xs (cf, b)
  | [], _, _, _, _, _ => rfl
  | a :: rest, gf, gl, cf, b, h => by
    simp only [scoreLoop, bestFold, scoreStep]
    by_cases h1 : ((evaluate a : WithBot ℚ)) > gf
    · rw [if_pos h1]
      by_cases h2 : ((evaluate a : WithBot ℚ)) > cf
      · rw [if_pos h2, if_pos h2]
        exact scoreLoop_snd evaluate rest _ _ _ _ le_rfl
      · rw [if_neg h2, if_neg h2]
        exact scoreLoop_snd evaluate rest _ _ _ _ (not_lt.mp h2)
    · rw [if_neg h1]
      have h2 : ¬ ((evaluate a : WithBot ℚ)) > cf := fun hc => h1 (lt_of_le_of_lt h hc)
      rw [if_neg h2]
      exact scoreLoop_snd evaluate rest gf gl cf b h

/-- `bestFold` over a concatenation is sequential composition. -/
theorem bestFold_append {α : Type} (evaluate : α → ℚ) :
    ∀ (xs ys : List α) (s : WithBot ℚ × Option α),
      bestFold evaluate (xs ++ ys) s = bestFold evaluate ys (bestFold evaluate xs s)
  | [], _, _ => rfl
  | a :: xs, ys, s => by
    simp only [List.cons_append, bestFold]
    exact bestFold_append evaluate xs ys _

/-- The tracker state recorded after generation `n` is `bestFold` over the
flattened cohorts up to and including generation `n`. -/
theorem trackRun_getD {α : Type} (evaluate : α → ℚ) :
    ∀ (gens : List (List α)) (cf : WithBot ℚ) (b : Option α) (n : ℕ),
      n < gens.length →
      (trackRun evaluate gens cf b).getD n (⊥, none)
        = bestFold evaluate ((gens.take (n + 1)).flatten) (cf, b)
  | [], _, _, n, hn => absurd hn (by simp)
  | g :: rest, cf, b, 0, _ => by
    simp only [trackRun, List.getD_cons_zero, List.take_succ_cons, List.take_zero,
      List.flatten_cons, List.flatten_nil, List.append_nil]
    exact scoreLoop_snd evaluate g ⊥ none cf b bot_le
  | g :: rest, cf, b, n + 1, hn => by
    simp only [trackRun, List.getD_cons_succ, List.take_succ_cons, List.flatten_cons]
    rw [trackRun_getD evaluate rest _ _ n (by simpa using hn)]
    rw [bestFold_append]
    have hsnd := scoreLoop_snd evaluate g ⊥ none cf b bot_le
    rw [hsnd]

/-- Full characterisation of `bestFold`: the fitness component becomes the
maximum of the starting value and all evaluated fitnesses, the carried
individual is kept when nothing exceeds the start, and otherwise becomes the
first candidate attaining the overall maximum. -/
theorem bestFold_spec {α : Type} (evaluate : α → ℚ) :
    ∀ (xs : List α) (cf : WithBot ℚ) (b : Option α),
      (bestFold evaluate xs (cf, b)).1 = cf ⊔ (xs.map evaluate).maximum ∧
      ((xs.map evaluate).maximum ≤ cf → (bestFold evaluate xs (cf, b)).2 = b) ∧
      (¬ (xs.map evaluate).maximum ≤ cf →
        (bestFold evaluate xs (cf, b)).2
          = xs.find? fun x =>
              decide ((evaluate x : WithBot ℚ) = (xs.map evaluate).maximum))
  | [], cf, b => by
    refine ⟨by simp [bestFold, List.maximum_nil], fun _ => rfl, fun h => absurd ?_ h⟩
    simp [List.maximum_nil]
  | a :: rest, cf, b => by
    have hM' : ((a :: rest).map evaluate).maximum
        = (evaluate a : WithBot ℚ) ⊔ (rest.map evaluate).maximum := by
      rw [List.map_cons, List.maximum_cons]
    by_cases h2 : ((evaluate a : WithBot ℚ)) > cf
    · have hif : (if (evaluate a : WithBot ℚ) > (cf, b).1
          then ((evaluate a : WithBot ℚ), some a) else (cf, b))
          = ((evaluate a : WithBot ℚ), some a) := if_pos h2
      rw [bestFold, hif]
      obtain ⟨ih1, ih2, ih3⟩ := bestFold_spec evaluate rest (evaluate a) (some a)
      refine ⟨?_, ?_, ?_⟩
      · rw [ih1, hM']
        exact (sup_eq_right.mpr (le_trans h2.le le_sup_left)).symm
      · intro hle
        rw [hM'] at hle
        exact absurd (le_trans le_sup_left hle) (not_le.mpr h2)
      · intro _
        by_cases hM : (rest.map evaluate).maximum ≤ (evaluate a : WithBot ℚ)
        · have hMeq : ((a :: rest).map evaluate).maximum = (evaluate a : WithBot ℚ) := by
            rw [hM']
            exact sup_eq_left.mpr hM
          rw [ih2 hM, hMeq]
          symm
          apply List.find?_cons_of_pos
          simp
        · have hlt : (evaluate a : WithBot ℚ) < (rest.map evaluate).maximum := not_le.mp hM
          have hMeq : ((a :: rest).map evaluate).maximum
              = (rest.map evaluate).maximum := by
            rw [hM']
            exact sup_eq_right.mpr hlt.le
          rw [ih3 hM, hMeq]
          symm
          apply List.find?_cons_of_neg
          simp [hlt.ne]
    · have hif : (if (evaluate a : WithBot ℚ) > (cf, b).1
          then ((evaluate a : WithBot ℚ), some a) else (cf, b)) = (cf, b) := if_neg h2
      rw [bestFold, hif]
      obtain ⟨ih1, ih2, ih3⟩ := bestFold_spec evaluate rest cf b
      have hfc : (evaluate a : WithBot ℚ) ≤ cf := not_lt.mp h2
      refine ⟨?_, ?_, ?_⟩
      · rw [ih1, hM', ← sup_assoc, sup_eq_left.mpr hfc]
      · intro hle
        rw [hM'] at hle
        exact ih2 (le_trans le_sup_right hle)
      · intro hgt
        rw [hM'] at hgt
        have hMc : ¬ (rest.map evaluate).maximum ≤ cf := fun hc => hgt (sup_le hfc hc)
        have hMeq : ((a :: rest).map evaluate).maximum
            = (rest.map evaluate).maximum := by
          rw [hM']
          exact sup_eq_right.mpr (le_trans hfc (not_le.mp hMc).le)
        rw [ih3 hMc, hMeq]
        symm
        apply List.find?_cons_of_neg
        have hne : (evaluate a : WithBot ℚ) ≠ (rest.map evaluate).maximum :=
          ne_of_lt (lt_of_le_of_lt hfc (not_le.mp hMc))
        simp [hne]

/-- Maxima of gene lists grow with the list under inclusion. -/
theorem maximum_le_of_subset (l1 l2 : List ℚ) (h : l1 ⊆ l2) :
    l1.maximum ≤ l2.maximum :=
  List.maximum_le_of_forall_le fun _ ha => List.le_maximum_of_mem' (h ha)

/-- C7: across any run of the tracker of lines 166-188 — the cohorts being
the decoded generations in order — the state recorded after generation `n`
is exactly (the maximum fitness evaluated so far in the run, the first
candidate in evaluation order attaining that maximum; `none` while nothing
has been evaluated), and the best-so-far fitness is non-decreasing
generation over generation (ties never replace an earlier best, since the
update uses strict `>`). -/
theorem evolution_tracking {α : Type} (evaluate : α → ℚ) (gens : List (List α))
    (n m : ℕ) (hn : n < gens.length) (hm : m ≤ n) :
    (trackRun evaluate gens ⊥ none).getD n (⊥, none)
      = ((((gens.take (n + 1)).flatten).map evaluate).maximum,
          ((gens.take (n + 1)).flatten).find? fun x =>
            decide ((evaluate x : WithBot ℚ)
              = (((gens.take (n + 1)).flatten).map evaluate).maximum)) ∧
    ((trackRun evaluate gens ⊥ none).getD m (⊥, none)).1
      ≤ ((trackRun evaluate gens ⊥ none).getD n (⊥, none)).1 := by
  have key : ∀ j, j < gens.length →
      (trackRun evaluate gens ⊥ none).getD j (⊥, none)
        = ((((gens.take (j + 1)).flatten).map evaluate).maximum,
            ((gens.take (j + 1)).flatten).find? fun x =>
              decide ((evaluate x : WithBot ℚ)
                = (((gens.take (j + 1)).flatten).map evaluate).maximum)) := by
    intro j hj
    rw [trackRun_getD evaluate gens ⊥ none j hj]
    obtain ⟨h1, h2, h3⟩ := bestFold_spec evaluate ((gens.take (j + 1)).flatten) ⊥ none
    apply Prod.ext_iff.mpr
    constructor
    · rw [h1, bot_sup_eq]
    · by_cases hM : (((gens.take (j + 1)).flatten).map evaluate).maximum ≤ ⊥
      · rw [h2 hM]
        have hbot : (((gens.take (j + 1)).flatten).map evaluate).maximum = ⊥ :=
          le_bot_iff.mp hM
        symm
        rw [List.find?_eq_none]
        intro x _
        simp only [hbot, decide_eq_true_eq]
        exact WithBot.coe_ne_bot
      · exact h3 hM
  refine ⟨key n hn, ?_⟩
  rw [key m (lt_of_le_of_lt hm hn), key n hn]
  apply maximum_le_of_subset
  apply List.map_subset
  intro x hx
  rw [List.mem_flatten] at hx ⊢
  obtain ⟨l, hl, hxl⟩ := hx
  refine ⟨l, ?_, hxl⟩
  have heq : gens.take (m + 1) = (gens.take (n + 1)).take (m + 1) := by
    rw [List.take_take]
    congr 1
    omega
  rw [heq] at hl
  exact List.take_subset _ _ hl

/-- C7 witness: two generations with fitnesses `[1, 3]` then `[2]` under the
identity evaluation — after each generation the tracker holds the running
maximum `3` and its first attainer, and the best-so-far is non-decreasing
from generation `0` to generation `1`. -/
theorem evolution_tracking_witness :
    (trackRun id [[(1 : ℚ), 3], [2]] ⊥ none).getD 1 (⊥, none)
      = (((([[(1 : ℚ), 3], [2]].take 2).flatten).map id).maximum,
          (([[(1 : ℚ), 3], [2]].take 2).flatten).find? fun x =>
            decide (((id x : ℚ) : WithBot ℚ)
              = ((([[(1 : ℚ), 3], [2]].take 2).flatten).map id).maximum)) ∧
    ((trackRun id [[(1 : ℚ), 3], [2]] ⊥ none).getD 0 (⊥, none)).1
      ≤ ((trackRun id [[(1 : ℚ), 3], [2]] ⊥ none).getD 1 (⊥, none)).1 :=
  evolution_tracking id [[(1 : ℚ), 3], [2]] 1 0 (by decide) (by decide)

end Evolve
